import Mathlib

/-!
# Verification of the cargo bootstrap script's version engine, resolver and build orchestrator

This development is a shallow embedding of `src/bootstrap.py` (the cargo
bootstrap tool): the semantic-version classes `PreRelease`, `Semver` and
`SemverRange`, the registry-index lookup `crate_info_from_index`, the
download/checksum step `dl_and_check_crate`, the dependency resolver
`Crate.resolve`, the build-script output protocol `BuildScriptRunner`,
and the build orchestrator `Crate.build`.

Python conventions are embedded as follows: a function that can raise an
exception returns `Option` (with `none` for the raised exception); Python
`None` values inside data are `Option.none`; Python 2 byte strings are Lean
`String`s (all data of interest is ASCII); Python dicts that the script
mutates are association lists where assignment replaces the value of an
existing key in place and otherwise appends (dict iteration order is
abstracted as insertion order); Python object identity, which the resolver
relies on, is embedded as indices into an explicit heap of `Crate` records.
-/

namespace Bootstrap

/-- Byte-wise lexicographic order on character lists: the order Python 2 uses
for `str < str` on ASCII data. -/
def chLt : List Char → List Char → Bool
  | [], [] => false
  | [], _ :: _ => true
  | _ :: _, [] => false
  | a :: as, b :: bs => if a < b then true else if b < a then false else chLt as bs

/-- Python 2 `str.__lt__` (byte order) on Lean strings. -/
def strLt (a b : String) : Bool := chLt a.data b.data

/-- Python `str.isdigit`: non-empty and every character a decimal digit. -/
def isDigitStr (s : String) : Bool := s.length > 0 && s.data.all Char.isDigit

/-- Python `int(s)` on a digit string (the only use the script makes of it). -/
def strToNat (s : String) : Nat :=
  s.data.foldl (fun n c => n * 10 + (c.toNat - 48)) 0

/-- Python `int(s)` as the script calls it on strings that may not be numeric:
`none` models the `ValueError` it raises then. -/
def strToNatChecked (s : String) : Option Nat :=
  if isDigitStr s then some (strToNat s) else none

/-- Python `str(n)` for a natural number. -/
def natToStr (n : Nat) : String := Nat.repr n

/-- Python `s.upper()` on ASCII data. -/
def strUpper (s : String) : String := String.mk (s.data.map Char.toUpper)

/-- Python `s.replace(old, new)` for single-character patterns, the only form
the script uses (`replace('-','_')` and `replace('.','_')`). -/
def strReplaceChar (s : String) (old new : Char) : String :=
  String.mk (s.data.map (fun c => if c = old then new else c))

/-- Python `str(x)` for an optional string: `None` prints as `"None"`. -/
def pyStr : Option String → String
  | some s => s
  | none => "None"

/-- Association-list lookup (Python `dict.get` / `has_key`). -/
def alookup {α : Type} (l : List (String × α)) (k : String) : Option α :=
  match l with
  | [] => none
  | (k', v) :: rest => if k' = k then some v else alookup rest k

/-- Python dict assignment `d[k] = v` on the association-list embedding:
replace the value of an existing key in place, else append. -/
def aupsert {α : Type} (l : List (String × α)) (k : String) (v : α) : List (String × α) :=
  match l with
  | [] => [(k, v)]
  | (k', v') :: rest => if k' = k then (k, v) :: rest else (k', v') :: aupsert rest k v

/-! ## `PreRelease` (bootstrap.py lines 86-173)

The `PreRelease` container is the list of dot-separated identifiers; a
version with no prerelease has the empty list (the Python constructor with
`None` leaves `_container` empty).  `preReleaseLt` embeds
`PreRelease.__lt__`: `none` is the `RuntimeError('PreRelease __lt__ failed')`
raised when the pairwise loop exhausts without deciding. -/

/-- The pairwise identifier loop of `PreRelease.__lt__` (lines 147-171):
numeric identifiers compare numerically and rank below non-numeric ones,
non-numeric identifiers compare in byte order, ties continue to the next
pair; exhausting the loop raises (`none`). -/
def preLoop : List String → List String → Option Bool
  | x :: xs, y :: ys =>
    if isDigitStr x then
      if isDigitStr y then
        if strToNat x < strToNat y then some true
        else if strToNat y < strToNat x then some false
        else preLoop xs ys
      else some true
    else if isDigitStr y then some false
    else if strLt x y then some true
    else if strLt y x then some false
    else preLoop xs ys
  | _, _ => none

/-- `PreRelease.__lt__` (lines 120-173): equality gives `false`; an empty
left container gives `false`; length decides before any identifier is
inspected (longer is higher precedence); equal lengths run the pairwise
loop, whose exhaustion raises `RuntimeError` (`none`). -/
def preReleaseLt (l r : List String) : Option Bool :=
  if l = r then some false
  else if l.isEmpty then some false
  else if r.length < l.length then some false
  else if l.length < r.length then some true
  else preLoop l r

/-! ## `Semver` (bootstrap.py lines 176-262)

`parts()` zero-fills omitted minor/patch, so a `Semver` is faithfully the
numeric triple plus the raw prerelease identifier list (empty = absent) and
the raw build-metadata string.  Nothing in the script distinguishes
`Semver("1")` from `Semver("1.0.0")` other than through `parts()`/`str()`,
which agree on the zero-filled form. -/

structure Semver where
  major : Nat
  minor : Nat
  patch : Nat
  pre : List String
  bmeta : Option String
  deriving DecidableEq, Repr

/-- `Semver.__str__` (lines 187-208): zero-filled triple, `-` + dotted
prerelease when present, `+` + build metadata when present. -/
def semverToString (v : Semver) : String :=
  natToStr v.major ++ "." ++ natToStr v.minor ++ "." ++ natToStr v.patch
    ++ (if v.pre.isEmpty then "" else "-" ++ String.intercalate "." v.pre)
    ++ (match v.bmeta with | some b => "+" ++ b | none => "")

/-- `Semver.__lt__` (lines 226-240), exactly as written: the `elif` chain
compares minor whenever `lmaj < rmaj` fails (even when `lmaj > rmaj`), and
likewise for patch; then prerelease presence and the prerelease order.
`none` propagates the `RuntimeError` from `PreRelease.__lt__`. -/
def semverLt (a b : Semver) : Option Bool :=
  if a.major < b.major then some true
  else if a.minor < b.minor then some true
  else if a.patch < b.patch then some true
  else if ¬a.pre.isEmpty ∧ b.pre.isEmpty then some true
  else if ¬a.pre.isEmpty ∧ ¬b.pre.isEmpty then preReleaseLt a.pre b.pre
  else some false

/-- `Semver.__eq__` (lines 251-259): numeric triple, raw prerelease and
build metadata all participate in equality. -/
def semverEq (a b : Semver) : Bool := decide (a = b)

/-- `Semver.__gt__` (line 245-246): `not (lt or eq)`. -/
def semverGt (a b : Semver) : Option Bool :=
  (semverLt a b).map (fun l => !(l || semverEq a b))

/-- `Semver.__ge__` (line 248-249): `not lt`. -/
def semverGe (a b : Semver) : Option Bool := (semverLt a b).map (!·)

/-- `Semver.__le__` (line 242-243): `not gt`. -/
def semverLe (a b : Semver) : Option Bool := (semverGt a b).map (!·)

/-! ## Parsing (the `SEMVER` regular expression, lines 75-79) -/

/-- Splits a character list at the first occurrence of `c`, removing it. -/
def splitFirst (c : Char) : List Char → Option (List Char × List Char)
  | [] => none
  | x :: xs =>
    if x = c then some ([], xs)
    else (splitFirst c xs).map (fun p => (x :: p.1, p.2))

/-- Splits a character list on every occurrence of `c` (Python `s.split(c)`
semantics: n separators yield n+1 pieces, possibly empty), with an
accumulator for the piece being read. -/
def splitAllAux (c : Char) : List Char → List Char → List String
  | [], acc => [String.mk acc.reverse]
  | x :: xs, acc =>
    if x = c then String.mk acc.reverse :: splitAllAux c xs []
    else splitAllAux c xs (x :: acc)

/-- Splits a character list on every occurrence of `c`. -/
def splitAll (c : Char) (l : List Char) : List String := splitAllAux c l []

/-- The `SEMVER` numeric-component pattern `0|[1-9][0-9]*`. -/
def numOk (s : String) : Bool :=
  match s.data with
  | [] => false
  | [c] => c.isDigit
  | c :: rest => decide ('1' ≤ c) && decide (c ≤ '9') && rest.all Char.isDigit

/-- A prerelease / build-metadata identifier: non-empty over `[0-9A-Za-z-]`. -/
def identOk (s : String) : Bool :=
  s.length > 0 && s.data.all (fun c => c.isDigit || c.isAlpha || c = '-')

/-- A dotted identifier sequence, as the `SEMVER` prerelease and build
groups require. -/
def dottedIdentsOk (l : List String) : Bool :=
  !l.isEmpty && l.all identOk

/-- Splits `main[-pre][+build]` into its three parts: the build part is
everything after the first `+`, the prerelease everything after the first
`-` of the remainder (the numeric part contains neither character). -/
def splitPreBuild (s : String) : String × Option String × Option String :=
  let (mainPre, bld) :=
    match splitFirst '+' s.data with
    | some (a, b) => (a, some (String.mk b))
    | none => (s.data, none)
  match splitFirst '-' mainPre with
  | some (a, p) => (String.mk a, some (String.mk p), bld)
  | none => (String.mk mainPre, none, bld)

/-- The numeric part `major(.minor(.patch)?)?` split on dots, each component
subject to a validity test; returns the raw component strings. -/
def parseTriple (ok : String → Bool) (s : String) :
    Option (String × Option String × Option String) :=
  match splitAll '.' s.data with
  | [ma] => if ok ma then some (ma, none, none) else none
  | [ma, mi] => if ok ma && ok mi then some (ma, some mi, none) else none
  | [ma, mi, pa] => if ok ma && ok mi && ok pa then some (ma, some mi, some pa) else none
  | _ => none

/-- The `Semver` constructor (lines 178-185): match against `SEMVER` and
record the components; `none` is the `ValueError` on a non-matching string. -/
def semverParse (s : String) : Option Semver := do
  let (main, preRaw, bldRaw) := splitPreBuild s
  let (ma, mi, pa) ← parseTriple numOk main
  let pre ← match preRaw with
    | none => some []
    | some p =>
      let ids := splitAll '.' p.data
      if dottedIdentsOk ids then some ids else none
  match bldRaw with
    | none => pure ()
    | some b => if dottedIdentsOk (splitAll '.' b.data) then pure () else none
  some { major := strToNat ma
         minor := strToNat (mi.getD "0")
         patch := strToNat (pa.getD "0")
         pre := pre
         bmeta := bldRaw }

/-! ## `SemverRange` (bootstrap.py lines 265-464)

A range keeps the raw matched components of the `SV_RANGE` regular
expression (numeric components may be the wildcard `"*"`), the fixed-up
operator, and — when an operator was written explicitly — the pivot
`Semver` the constructor parses from the rest of the input
(`self._semver`). -/

structure SemverRange where
  op : String
  majorR : Option String
  minorR : Option String
  patchR : Option String
  preR : List String
  bmetaR : Option String
  pivot : Option Semver
  deriving DecidableEq, Repr

/-- Strips the explicit leading operator, mirroring how the `SV_RANGE`
alternation `<|>|=|<=|>=|^|~` matches with backtracking: a two-character
operator wins exactly when the single character cannot be followed by a
numeric component (`=` never starts one). -/
def splitOp (l : List Char) : Option String × List Char :=
  match l with
  | '<' :: '=' :: rest => (some "<=", rest)
  | '>' :: '=' :: rest => (some ">=", rest)
  | '<' :: rest => (some "<", rest)
  | '>' :: rest => (some ">", rest)
  | '=' :: rest => (some "=", rest)
  | '^' :: rest => (some "^", rest)
  | '~' :: rest => (some "~", rest)
  | _ => (none, l)

/-- An `SV_RANGE` numeric component: a wildcard or `0|[1-9][0-9]*`. -/
def numStarOk (s : String) : Bool := s = "*" || numOk s

/-- The `SemverRange` constructor (lines 267-291): match against `SV_RANGE`,
fix up the operator (`*` when no operator and any component is a wildcard,
else `^`; an explicit operator additionally parses `self._semver` from the
remaining input, whose failure — e.g. a wildcard component — raises).
`none` is the `ValueError` on a non-matching string. -/
def parseRange (s : String) : Option SemverRange := do
  let (opRaw, rest) := splitOp s.data
  let restS := String.mk rest
  let (main, preRaw, bldRaw) := splitPreBuild restS
  let (ma, mi, pa) ← parseTriple numStarOk main
  let pre ← match preRaw with
    | none => some []
    | some p =>
      let ids := splitAll '.' p.data
      if dottedIdentsOk ids then some ids else none
  match bldRaw with
    | none => pure ()
    | some b => if dottedIdentsOk (splitAll '.' b.data) then pure () else none
  match opRaw with
  | none =>
    let op := if ma = "*" || mi = some "*" || pa = some "*" then "*" else "^"
    some { op := op, majorR := some ma, minorR := mi, patchR := pa
           preR := pre, bmetaR := bldRaw, pivot := none }
  | some op => do
    let pv ← semverParse restS
    some { op := op, majorR := some ma, minorR := mi, patchR := pa
           preR := pre, bmetaR := bldRaw, pivot := some pv }

/-- `SemverRange.lower` (lines 327-380).  The outer `Option` is the
exception channel: `none` models the `RuntimeError('No lower bound')` at
the fall-through, a `ValueError` from the inner `Semver(...)` construction,
or a `ValueError` from `int()` on a non-numeric component; `some none` is
the Python `None` returned for the comparison operators. -/
def SemverRange.lower (r : SemverRange) : Option (Option Semver) :=
  if r.op = "<=" ∨ r.op = "<" ∨ r.op = "=" ∨ r.op = ">" ∨ r.op = ">=" then some none
  else if r.op = "*" then
    if r.majorR = some "*" then (semverParse "0.0.0").map some
    else if r.minorR = some "*" then
      match r.majorR with
      | some ma => (semverParse (ma ++ ".0.0")).map some
      | none => none
    else if r.patchR = some "*" then
      match r.majorR, r.minorR with
      | some ma, some mi => (semverParse (ma ++ "." ++ mi ++ ".0")).map some
      | _, _ => none
    else none
  else if r.op = "^" then
    match r.patchR with
    | none =>
      match r.minorR with
      | none =>
        match r.majorR with
        | some ma => (semverParse (ma ++ ".0.0")).map some
        | none => none
      | some mi =>
        match r.majorR with
        | some ma => (semverParse (ma ++ "." ++ mi ++ ".0")).map some
        | none => none
    | some pa =>
      match r.majorR, r.minorR with
      | some ma, some mi => do
        let man ← strToNatChecked ma
        if man = 0 then do
          let min ← strToNatChecked mi
          if min = 0 then (semverParse ("0.0." ++ pa)).map some
          else (semverParse ("0." ++ mi ++ "." ++ pa)).map some
        else (semverParse (ma ++ "." ++ mi ++ "." ++ pa)).map some
      | _, _ => none
  else if r.op = "~" then
    match r.patchR with
    | none =>
      match r.minorR with
      | none =>
        match r.majorR with
        | some ma => (semverParse (ma ++ ".0.0")).map some
        | none => none
      | some mi =>
        match r.majorR with
        | some ma => (semverParse (ma ++ "." ++ mi ++ ".0")).map some
        | none => none
    | some pa =>
      match r.majorR, r.minorR with
      | some ma, some mi => (semverParse (ma ++ "." ++ mi ++ "." ++ pa)).map some
      | _, _ => none
  else none

/-- `SemverRange.upper` (lines 382-435), with the same `Option` conventions
as `SemverRange.lower`; the bare-`*` wildcard returns Python `None`
(`some none`). -/
def SemverRange.upper (r : SemverRange) : Option (Option Semver) :=
  if r.op = "<=" ∨ r.op = "<" ∨ r.op = "=" ∨ r.op = ">" ∨ r.op = ">=" then some none
  else if r.op = "*" then
    if r.majorR = some "*" then some none
    else if r.minorR = some "*" then
      match r.majorR with
      | some ma => do
        let man ← strToNatChecked ma
        (semverParse (natToStr (man + 1) ++ ".0.0")).map some
      | none => none
    else if r.patchR = some "*" then
      match r.majorR, r.minorR with
      | some ma, some mi => do
        let min ← strToNatChecked mi
        (semverParse (ma ++ "." ++ natToStr (min + 1) ++ ".0")).map some
      | _, _ => none
    else none
  else if r.op = "^" then
    match r.patchR with
    | none =>
      match r.minorR with
      | none =>
        match r.majorR with
        | some ma => do
          let man ← strToNatChecked ma
          (semverParse (natToStr (man + 1) ++ ".0.0")).map some
        | none => none
      | some mi =>
        match r.majorR with
        | some ma => do
          let min ← strToNatChecked mi
          (semverParse (ma ++ "." ++ natToStr (min + 1) ++ ".0")).map some
        | none => none
    | some pa =>
      match r.majorR, r.minorR with
      | some ma, some mi => do
        let man ← strToNatChecked ma
        if man = 0 then do
          let min ← strToNatChecked mi
          if min = 0 then do
            let pan ← strToNatChecked pa
            (semverParse ("0.0." ++ natToStr (pan + 1))).map some
          else (semverParse ("0." ++ natToStr (min + 1) ++ ".0")).map some
        else (semverParse (natToStr (man + 1) ++ ".0.0")).map some
      | _, _ => none
  else if r.op = "~" then
    match r.patchR with
    | none =>
      match r.minorR with
      | none =>
        match r.majorR with
        | some ma => do
          let man ← strToNatChecked ma
          (semverParse (natToStr (man + 1) ++ ".0.0")).map some
        | none => none
      | some mi =>
        match r.majorR with
        | some ma => do
          let min ← strToNatChecked mi
          (semverParse (ma ++ "." ++ natToStr (min + 1) ++ ".0")).map some
        | none => none
    | some _ =>
      match r.majorR, r.minorR with
      | some ma, some mi => do
        let min ← strToNatChecked mi
        (semverParse (ma ++ "." ++ natToStr (min + 1) ++ ".0")).map some
      | _, _ => none
  else none

/-- The `lower ≤ v < upper` test shared by the `*`, `^` and `~` branches of
`SemverRange.compare`, with Python's short-circuit: `upper` is only
evaluated when the lower-bound test passes. -/
def cmpBounds (r : SemverRange) (sv : Semver) : Option Bool :=
  match r.lower with
  | some (some lo) =>
    match semverGe sv lo with
    | some false => some false
    | some true =>
      match r.upper with
      | some (some up) => semverLt sv up
      | _ => none
    | none => none
  | _ => none

/-- `SemverRange.compare` (lines 437-464): wildcard-major ranges test
`sv >= 0.0.0`; other wildcard, caret and tilde ranges test the half-open
interval; the comparison operators test directly against the pivot.
`none` is any exception raised along the way. -/
def SemverRange.compare (r : SemverRange) (sv : Semver) : Option Bool :=
  if r.op = "*" then
    if r.majorR = some "*" then semverGe sv ⟨0, 0, 0, [], none⟩
    else cmpBounds r sv
  else if r.op = "^" then cmpBounds r sv
  else if r.op = "~" then cmpBounds r sv
  else if r.op = "<=" then
    match r.pivot with
    | some p => semverLe sv p
    | none => none
  else if r.op = ">=" then
    match r.pivot with
    | some p => semverGe sv p
    | none => none
  else if r.op = "<" then
    match r.pivot with
    | some p => semverLt sv p
    | none => none
  else if r.op = ">" then
    match r.pivot with
    | some p => semverGt sv p
    | none => none
  else if r.op = "=" then
    match r.pivot with
    | some p => some (semverEq sv p)
    | none => none
  else none

/-! ## Registry-index records and `crate_info_from_index` (lines 961-1001) -/

/-- A dependency's declared feature list: the script accepts either a JSON
list or a mapping (in which case it uses the keys), lines 669-673. -/
inductive FtrDecl where
  | flist (l : List String)
  | fdict (keys : List String)
  deriving DecidableEq, Repr

/-- A package's feature map from an index record: a mapping
feature-name → implied feature list, or (the `get` default) a list. -/
inductive Features where
  | flist (l : List String)
  | fmap (m : List (String × List String))
  deriving DecidableEq, Repr

/-- A dependency declaration, as it appears in an index record's `deps`
entry or a manifest's dependency table. -/
structure DepInfo where
  dname : String
  req : String
  kind : Option String
  optionalDep : Bool
  ftrDecl : FtrDecl
  defaultFeatures : Bool
  targetRestrict : Option String
  deriving DecidableEq, Repr

/-- One line of a registry index file: the fields `crate_info_from_index`
reads, each optional exactly as the `.get` calls allow. -/
structure IndexRecord where
  vers : Option String
  rname : Option String
  deps : List DepInfo
  features : Features
  cksum : Option String
  deriving DecidableEq, Repr

/-- Lines 981-987: keep the records that have a `vers` field and whose
parsed version satisfies the range, keyed by the parsed version.  A
repeated version string overwrites the earlier record (dict assignment);
`none` propagates a `ValueError` from `Semver(info['vers'])` or an
exception from `compare`.  (Python keys the dict by the `Semver` object;
two keys collide exactly when their normalized strings — hence these
records — are equal, so keying by the parsed value is faithful.  Dict
iteration order is abstracted as insertion order.) -/
def passedList (svr : SemverRange) (recs : List IndexRecord) :
    Option (List (Semver × IndexRecord)) :=
  recs.foldlM
    (fun acc info =>
      match info.vers with
      | none => some acc
      | some vs => do
        let sv ← semverParse vs
        let b ← svr.compare sv
        if b then
          some (match acc.find? (fun p => p.1 = sv) with
                | some _ => acc.map (fun p => if p.1 = sv then (sv, info) else p)
                | none => acc ++ [(sv, info)])
        else some acc)
    []

/-- Inserts a version into a list sorted by `Semver.__lt__`, propagating the
`RuntimeError` the comparison can raise. -/
def insertSorted (v : Semver) : List Semver → Option (List Semver)
  | [] => some [v]
  | w :: ws => do
    let b ← semverLt v w
    if b then some (v :: w :: ws)
    else do
      let t ← insertSorted v ws
      some (w :: t)

/-- `sorted(passed.iterkeys())` (line 988): an insertion sort driven by
`Semver.__lt__`.  Any single comparison raising `RuntimeError` aborts
(`none`); note that with only two keys the one comparison Python performs
is the same one performed here, whatever the dict order. -/
def sortedKeys : List Semver → Option (List Semver)
  | [] => some []
  | v :: vs => do
    let t ← sortedKeys vs
    insertSorted v t

/-- `crate_info_from_index` (lines 961-1001) after the sharded file has been
read into its per-line records: filter by the range, sort the satisfying
versions, pop the last as the best match, and return its fields with the
dependency list restricted to entries whose `target` (defaulting to the
current target) matches.  `none` covers the `IndexError` from `pop()` on an
empty list when nothing satisfies, and any exception from parsing, from
`compare` or from sorting. -/
def crateInfoFromIndex (tgt : String) (recs : List IndexRecord) (svr : SemverRange) :
    Option (Option String × Option String × List DepInfo × Features × Option String) := do
  let passed ← passedList svr recs
  let keys ← sortedKeys (passed.map (·.1))
  let bestMatch ← keys.getLast?
  let bestInfo ← (passed.find? (fun p => p.1 = bestMatch)).map (·.2)
  let deps := bestInfo.deps.filter (fun d => d.targetRestrict.getD tgt = tgt)
  some (bestInfo.rname, bestInfo.vers, deps, bestInfo.features, bestInfo.cksum)

/-! ## `dl_and_check_crate` (lines 831-861) -/

/-- The observable outcome of `dl_and_check_crate`: whether the download was
skipped (already-seen crate or existing directory), whether the checksum
comparison ran and what it said, whether the archive was unpacked, and the
returned crate directory. -/
structure DlOutcome where
  skippedSeen : Bool
  skippedDir : Bool
  checksumOk : Option Bool
  unpacked : Bool
  cdir : String
  deriving DecidableEq, Repr

/-- `dl_and_check_crate` (lines 831-861) with the network fetch abstracted
to the digest of the fetched bytes: already-seen crates and existing
directories short-circuit; otherwise the archive is fetched, its digest
compared against the index checksum when one is present — a mismatch only
selects the `Checksum is BAD` log line (`checksumOk = some false`), it
raises nothing — and the archive is unpacked and the directory returned
unconditionally. -/
def dlAndCheckCrate (tdir name ver : String) (seen : Bool) (dirExists : Bool)
    (digest : String) (cksum : Option String) : DlOutcome :=
  let cname := name ++ "-" ++ ver
  let cdir := tdir ++ "/" ++ cname
  if seen then
    { skippedSeen := true, skippedDir := false, checksumOk := none, unpacked := false, cdir := cdir }
  else if dirExists then
    { skippedSeen := false, skippedDir := true, checksumOk := none, unpacked := false, cdir := cdir }
  else
    { skippedSeen := false, skippedDir := false
      checksumOk := cksum.map (fun c => decide (digest = c))
      unpacked := true, cdir := cdir }

/-! ## The build-script output protocol `BuildScriptRunner` (lines 563-589) -/

/-- The `BSCRIPT` regular expression (line 80)
`cargo:key(=value)?` anchored on the whole line: the key is one or more
characters that are neither whitespace nor `=`; the value, when the `=` is
present, is one or more arbitrary characters. -/
def bscriptMatch (l : String) : Option (String × Option String) :=
  match l.data with
  | 'c' :: 'a' :: 'r' :: 'g' :: 'o' :: ':' :: rest =>
    let keyOk := fun (s : String) =>
      s.length > 0 && s.data.all (fun c => !c.isWhitespace && c ≠ '=')
    match splitFirst '=' rest with
    | none =>
      if keyOk (String.mk rest) then some (String.mk rest, none) else none
    | some (k, v) =>
      if keyOk (String.mk k) && !v.isEmpty then some (String.mk k, some (String.mk v))
      else none
  | _ => none

/-- The parsed effect of one build-script run (`BuildScriptRunner.__call__`,
lines 565-589): extra compiler arguments, feature-style environment
additions, and the exported-environment map (`denv`) recorded from
unrecognized tags. -/
structure BsEffect where
  cmd : List String
  env : List (String × String)
  denv : List (String × Option String)
  deriving DecidableEq, Repr

/-- `BuildScriptRunner.__call__` (lines 565-589): scan the output lines for
`cargo:` lines; `rustc-link-lib`, `rustc-link-search` and `rustc-cfg`
produce compiler flags (the last also a `CARGO_FEATURE_*` variable, whose
integer value 1 later stringifies to `"1"`); any other tag is recorded
verbatim into `denv`.  Non-matching lines are skipped. -/
def buildScriptEffect (outLines : List String) : BsEffect :=
  outLines.foldl
    (fun acc l =>
      match bscriptMatch l with
      | none => acc
      | some (k, v) =>
        if k = "rustc-link-lib" then { acc with cmd := acc.cmd ++ ["-l", pyStr v] }
        else if k = "rustc-link-search" then { acc with cmd := acc.cmd ++ ["-L", pyStr v] }
        else if k = "rustc-cfg" then
          { acc with
            cmd := acc.cmd ++ ["--cfg", pyStr v]
            env := aupsert acc.env
              ("CARGO_FEATURE_" ++ strReplaceChar (strUpper (pyStr v)) '-' '_') "1" }
        else { acc with denv := aupsert acc.denv k v })
    { cmd := [], env := [], denv := [] }

/-- The `DEP_*` environment loop of `Crate.build` (lines 733-737): for every
direct dependency's exported-environment map, one variable per entry.  The
variable name is `DEP_<package, uppercased>_<STR(VALUE), uppercased>` — the
source interpolates `v.upper()`, leaving the key `k` unused — and the
value is `str(v)`. -/
def depEnvVars (depEnv : List (String × List (String × Option String))) :
    List (String × String) :=
  depEnv.foldl
    (fun acc p =>
      p.2.foldl
        (fun acc q =>
          let vs := pyStr q.2
          aupsert acc ("DEP_" ++ strUpper p.1 ++ "_" ++ strUpper vs) vs)
        acc)
    []

/-! ## `Crate`, `Crate.resolve` (lines 591-693) and `Crate.build` (lines 696-808)

The resolver works on mutable `Crate` objects shared between the global
`CRATES` registry (key `name-version` → object) and the `UNRESOLVED` FIFO
worklist; object identity matters (two objects with the same key can
coexist), so the embedding gives crates identity as indices into a heap
list, with the registry and worklist holding indices.

`crate_info_from_toml` reads the downloaded crate's manifest through the
external toml parser (an out-of-scope collaborator per the spec); the
embedding abstracts it as a `World` map from crate directory to the
parsed dependency list and build-target list.  Likewise the network fetch
is abstracted to a map from crate name to the digest of the fetched bytes,
and a build script's stdout to a map from crate key to its output lines. -/

/-- One entry of a crate's build list: a library, binary or build-script
target with its source path. -/
structure BuildTarget where
  ttype : String
  tname : String
  tpath : String
  deriving DecidableEq, Repr

/-- A `Crate` object (constructor lines 593-606): name, parsed version, the
dependency declarations to resolve, crate directory, the build list with
build scripts moved first, and the mutable resolution/build bookkeeping
(`_resolved`, `_deps`, `_refs`, `_env`, `_dep_env`). -/
structure Crate where
  cname : String
  version : Semver
  depInfo : List DepInfo
  cdirC : String
  buildTargets : List BuildTarget
  resolvedF : Bool
  depsE : List (String × List String)
  refsE : List String
  envE : List (String × Option String)
  depEnvE : List (String × List (String × Option String))
  deriving DecidableEq, Repr

/-- `Crate.__str__` (lines 614-615): the `name-version` registry key. -/
def crateKey (c : Crate) : String := c.cname ++ "-" ++ semverToString c.version

/-- The `Crate` constructor's field initialization, with the build-script
targets filtered to the front (lines 598-601). -/
def mkCrate (name : String) (ver : Semver) (deps : List DepInfo) (cdir : String)
    (build : List BuildTarget) : Crate :=
  { cname := name, version := ver, depInfo := deps, cdirC := cdir
    buildTargets := build.filter (fun b => b.ttype = "build_script")
      ++ build.filter (fun b => b.ttype ≠ "build_script")
    resolvedF := false, depsE := [], refsE := [], envE := [], depEnvE := [] }

/-- What `crate_info_from_toml` returns for a downloaded crate: the
manifest's dependency declarations and build list. -/
structure TomlInfo where
  tdeps : List DepInfo
  tbuild : List BuildTarget
  deriving DecidableEq, Repr

/-- The run's fixed surroundings: the target triple, the working directory,
the registry index (name → records), the manifest parse of each crate
directory, the digest of each crate's fetched archive, and each crate's
build-script stdout. -/
structure World where
  tgt : String
  tdir : String
  index : List (String × List IndexRecord)
  tomls : List (String × TomlInfo)
  digests : List (String × String)
  scriptOut : List (String × List String)
  deriving Repr

/-- The run's mutable state: the object heap, the `CRATES` registry and the
`UNRESOLVED` worklist (both holding heap indices), the set of unpacked
crate directories, the `BUILT` memo, the produced artifact files, and a
count of executed build commands per crate key. -/
structure RState where
  heap : List Crate
  reg : List (String × Nat)
  worklist : List Nat
  dirs : List String
  builtMap : List (String × String)
  files : List String
  runsMap : List (String × Nat)
  deriving Repr

/-- The feature-activation block of `Crate.resolve` (lines 668-687): the
declaration's feature list (keys when it is a mapping, non-empty entries
when a list) plus `"default"` unless default features are disabled, then
one lookup per requested name into the depended-on package's feature map
(or, when the record's features are a list, the list filtered to the
requested names). -/
def activatedFeatures (d : DepInfo) (ftrs : Features) : List String :=
  let tftrs := match d.ftrDecl with
    | .fdict keys => keys
    | .flist l => l.filter (fun x => x.length > 0)
  let tftrs := if d.defaultFeatures then tftrs ++ ["default"] else tftrs
  match ftrs with
  | .fmap m =>
    tftrs.foldl
      (fun acc k => match alookup m k with
        | some fl => acc ++ fl
        | none => acc)
      []
  | .flist l => l.filter (fun x => x.length > 0 && tftrs.contains x)

/-- `Crate.add_dep` + `Crate.add_ref` (lines 617-627): record the edge with
its feature set unless an edge to that key already exists, and add the
reverse referrer edge to the target object (deduplicated). -/
def addDep (s : RState) (selfId dcId : Nat) (features : List String) : RState :=
  match s.heap.get? selfId, s.heap.get? dcId with
  | some selfC, some dc =>
    let key := crateKey dc
    if (alookup selfC.depsE key).isSome then s
    else
      let heap1 := s.heap.set selfId { selfC with depsE := selfC.depsE ++ [(key, features)] }
      let skey := crateKey selfC
      match heap1.get? dcId with
      | some dc1 =>
        if dc1.refsE.contains skey then { s with heap := heap1 }
        else { s with heap := heap1.set dcId { dc1 with refsE := dc1.refsE ++ [skey] } }
      | none => { s with heap := heap1 }
  | _, _ => s

/-- The body of `Crate.resolve`'s per-dependency loop (lines 643-690): skip
kinds other than normal/build and optional declarations; look up the best
index match, download, merge the manifest's dependency declarations, build
a new `Crate` object — reusing the registry object when the key is already
registered, and swallowing a construction failure as `dcrate = None` —
append it to the worklist, compute the activated features and record the
edge.  `none` is a fatal exception (range parse, missing index file, index
lookup failure). -/
def resolveDepStep (w : World) (selfId : Nat) (s : RState) (d : DepInfo) : Option RState :=
  let kind := d.kind.getD "normal"
  if ¬(kind = "normal" ∨ kind = "build") then some s
  else if d.optionalDep then some s
  else do
    let svr ← parseRange d.req
    let recs ← alookup w.index d.dname
    let (nameO, verO, ideps, ftrs, _cksum) ← crateInfoFromIndex w.tgt recs svr
    let cname := pyStr nameO ++ "-" ++ pyStr verO
    let seen := (alookup s.reg cname).isSome
    let dirExists := (w.tdir ++ "/" ++ cname) ∈ s.dirs
    let outc := dlAndCheckCrate w.tdir (pyStr nameO) (pyStr verO) seen dirExists
      ((alookup w.digests cname).getD "") _cksum
    let cdir := outc.cdir
    let s := { s with dirs := if outc.unpacked then s.dirs ++ [cdir] else s.dirs }
    let tomlO := alookup w.tomls cdir
    let deps := ideps ++ (match tomlO with | some t => t.tdeps | none => [])
    let dcrateNew : Option Crate := do
      let t ← tomlO
      let v ← semverParse (pyStr verO)
      some (mkCrate (pyStr nameO) v deps cdir t.tbuild)
    match dcrateNew with
    | none => some s
    | some dc =>
      let key := crateKey dc
      let (dcId, s) :=
        match alookup s.reg key with
        | some i => (i, s)
        | none => (s.heap.length, { s with heap := s.heap ++ [dc] })
      let s := { s with worklist := s.worklist ++ [dcId] }
      let features := activatedFeatures d ftrs
      some (addDep s selfId dcId features)

/-- `Crate.resolve` (lines 632-693): a no-op when the object is already
marked resolved or its key is already registered; otherwise process every
dependency declaration, mark the object resolved and register it. -/
def resolveCrate (w : World) (cid : Nat) (s : RState) : Option RState := do
  let c ← s.heap.get? cid
  if c.resolvedF then some s
  else if (alookup s.reg (crateKey c)).isSome then some s
  else do
    let s2 ← c.depInfo.foldlM (resolveDepStep w cid) s
    let c2 ← s2.heap.get? cid
    some { s2 with
           heap := s2.heap.set cid { c2 with resolvedF := true }
           reg := aupsert s2.reg (crateKey c2) cid }

/-- The main resolution loop (lines 1090-1092): pop the front of
`UNRESOLVED` and resolve it until the worklist is empty.  The fuel only
bounds the number of iterations; a run that exhausts it without emptying
the worklist yields `none`. -/
def runResolver (w : World) : Nat → RState → Option RState
  | 0, s => match s.worklist with
    | [] => some s
    | _ :: _ => none
  | fuel + 1, s =>
    match s.worklist with
    | [] => some s
    | i :: rest => do
      let s2 ← resolveCrate w i { s with worklist := rest }
      runResolver w fuel s2

/-- The `({'name', 'lib'}, env)` pair `Crate.build` returns. -/
structure BuildRet where
  retName : String
  lib : String
  renv : List (String × Option String)
  deriving DecidableEq, Repr

/-- `Crate.build` (lines 696-808): short-circuit on the `BUILT` memo;
recursively build every dependency that is in the registry, recording each
dependency's exported environment under its package name in `_dep_env`;
short-circuit (marking built) when the output artifact already exists;
otherwise execute the queued build commands — one compiler invocation per
build target, plus, for a build-script target, the script run whose parsed
output is folded into the crate's exported environment — produce the
output artifact and mark the crate built.  Executed commands are counted
per crate key in `runsMap`; `none` is a missing heap index or exhausted
fuel, never a code path of a successful source run. -/
def buildCrate (w : World) (outDir : String) :
    Nat → String → List String → Nat → RState → Option (RState × BuildRet)
  | 0, _, _, _, _ => none
  | fuel + 1, byKey, _features, cid, s => do
    let c ← s.heap.get? cid
    let key := crateKey c
    let extraFilename := "-" ++ strReplaceChar (semverToString c.version) '.' '_'
    let outputName := strReplaceChar c.cname '-' '_'
    let output := outDir ++ "/lib" ++ outputName ++ extraFilename ++ ".rlib"
    if (alookup s.builtMap key).isSome then
      some (s, { retName := c.cname, lib := output, renv := c.envE })
    else do
      let s ← c.depsE.foldlM
        (fun s p => do
          match alookup s.reg p.1 with
          | none => some s
          | some depId => do
            let (s2, ret) ← buildCrate w outDir fuel key p.2 depId s
            let cSelf ← s2.heap.get? cid
            let cSelf2 := { cSelf with depEnvE := aupsert cSelf.depEnvE ret.retName ret.renv }
            some { s2 with heap := s2.heap.set cid cSelf2 })
        s
      let c ← s.heap.get? cid
      if output ∈ s.files then
        some ({ s with builtMap := aupsert s.builtMap key byKey },
              { retName := c.cname, lib := output, renv := c.envE })
      else
        let scriptLines := (alookup w.scriptOut key).getD []
        let step := fun (acc : Nat × List (String × Option String)) (b : BuildTarget) =>
          let acc := (acc.1 + 1, acc.2)
          if b.ttype = "build_script" then
            let eff := buildScriptEffect scriptLines
            (acc.1 + 1, eff.denv.foldl (fun e q => aupsert e q.1 q.2) acc.2)
          else acc
        let (runsInc, newEnv) := c.buildTargets.foldl step (0, c.envE)
        let c3 := { c with envE := newEnv }
        let s := { s with
                   heap := s.heap.set cid c3
                   files := s.files ++ [output]
                   runsMap := aupsert s.runsMap key ((alookup s.runsMap key).getD 0 + runsInc)
                   builtMap := aupsert s.builtMap key byKey }
        some (s, { retName := c3.cname, lib := output, renv := c3.envE })


/-! ## Concrete worlds and inputs used to settle the claims -/

/-- A plain dependency declaration on package `n` with requirement `^1`. -/
def depOn (n : String) : DepInfo :=
  { dname := n, req := "^1", kind := none, optionalDep := false
    ftrDecl := .flist [], defaultFeatures := true, targetRestrict := none }

/-- A plain library build target. -/
def libT (n : String) : BuildTarget := { ttype := "lib", tname := n, tpath := "lib.rs" }

/-- An index record for version 1.0.0 of package `n` with dependencies `ds`. -/
def rec100 (n : String) (ds : List DepInfo) : IndexRecord :=
  { vers := some "1.0.0", rname := some n, deps := ds, features := .flist [], cksum := none }

/-- The diamond world: A depends on B and C, and B and C each depend on D. -/
def diamondWorld : World :=
  { tgt := "t", tdir := "td"
    index := [("B", [rec100 "B" [depOn "D"]]), ("C", [rec100 "C" [depOn "D"]]),
              ("D", [rec100 "D" []])]
    tomls := [("td/B-1.0.0", { tdeps := [], tbuild := [libT "B"] }),
              ("td/C-1.0.0", { tdeps := [], tbuild := [libT "C"] }),
              ("td/D-1.0.0", { tdeps := [], tbuild := [libT "D"] })]
    digests := [], scriptOut := [] }

/-- The diamond world's initial state: the root crate A on the worklist. -/
def diamondInit : RState :=
  { heap := [mkCrate "A" ⟨1, 0, 0, [], none⟩ [depOn "B", depOn "C"] "root" [libT "A"]]
    reg := [], worklist := [0], dirs := [], builtMap := [], files := [], runsMap := [] }

/-- The diamond world fully resolved. -/
def diamondResolved : Option RState := runResolver diamondWorld 10 diamondInit

/-- The referrer edges of the registry's node for `D-1.0.0` after resolving
the diamond. -/
def diamondDRefs : Option (List String) :=
  diamondResolved.bind fun s =>
    (alookup s.reg "D-1.0.0").bind fun i => (s.heap.get? i).map (fun c => c.refsE)

/-- How many registry entries carry the key `D-1.0.0` after resolving the
diamond. -/
def diamondDRegCount : Option Nat :=
  diamondResolved.map (fun s => (s.reg.filter (fun p => p.1 = "D-1.0.0")).length)

/-- The state after building the diamond's root crate. -/
def diamondBuilt : Option RState :=
  diamondResolved.bind fun s =>
    (buildCrate diamondWorld "od" 10 "bootstrap.py" [] 0 s).map (fun p => p.1)

/-- The feature world: the root crate R depends on P, whose index record
carries the feature map x → [y], default → [x]; R's declaration requests no
explicit features and leaves default features enabled. -/
def featureWorld : World :=
  { tgt := "t", tdir := "td"
    index := [("P", [{ vers := some "1.0.0", rname := some "P", deps := []
                       features := .fmap [("x", ["y"]), ("default", ["x"])], cksum := none }])]
    tomls := [("td/P-1.0.0", { tdeps := [], tbuild := [libT "P"] })]
    digests := [], scriptOut := [] }

/-- The feature world's initial state. -/
def featureInit : RState :=
  { heap := [mkCrate "R" ⟨1, 0, 0, [], none⟩ [depOn "P"] "root" [libT "R"]]
    reg := [], worklist := [0], dirs := [], builtMap := [], files := [], runsMap := [] }

/-- The activated feature set recorded on the edge R → P after resolving
the feature world. -/
def featureEdgeP : Option (List String) :=
  (runResolver featureWorld 10 featureInit).bind fun s =>
    (s.heap.get? 0).bind fun c => alookup c.depsE "P-1.0.0"

/-- Two index records whose versions have prereleases that are numerically
equal but textually distinct, pairwise. -/
def tieRecords : List IndexRecord :=
  [{ vers := some "1.0.0-1.01", rname := some "p", deps := [], features := .flist []
     cksum := none },
   { vers := some "1.0.0-1.1", rname := some "p", deps := [], features := .flist []
     cksum := none }]

/-- An arbitrary dependency declaration marked optional. -/
def optionalDecl : DepInfo :=
  { dname := "X", req := "^1", kind := some "normal", optionalDep := true
    ftrDecl := .flist ["feat"], defaultFeatures := true, targetRestrict := none }

/-- A world with nothing in it, for exercising single resolver steps. -/
def emptyWorld : World :=
  { tgt := "t", tdir := "td", index := [], tomls := [], digests := [], scriptOut := [] }

/-- A state with nothing in it, for exercising single resolver steps. -/
def emptyState : RState :=
  { heap := [], reg := [], worklist := [], dirs := [], builtMap := [], files := [], runsMap := [] }

/-! ## The claimed prerelease comparison procedure

Modelled from the spec: the pairwise-first identifier comparison that
section 4.1 of the spec describes (compare dot-identifiers left to right,
numeric below non-numeric when the kinds differ, numeric numerically,
non-numeric in byte order, and only when all shared identifiers are equal
does the shorter prerelease rank lower).  It exists to be compared against
`preReleaseLt`, the order the source actually implements. -/

/-- Modelled from the spec: the order of one identifier pair as claimed —
numeric identifiers compare numerically and rank below non-numeric ones
when the kinds differ; non-numeric identifiers compare in byte order. -/
def claimIdentLt (x y : String) : Bool :=
  if isDigitStr x then
    if isDigitStr y then decide (strToNat x < strToNat y) else true
  else if isDigitStr y then false
  else strLt x y

/-- Modelled from the spec: pairwise-first prerelease comparison — the
identifier pairs decide left to right, and only when all shared identifiers
are equal does the prerelease with fewer identifiers rank lower. -/
def claimPreLt : List String → List String → Bool
  | [], [] => false
  | [], _ :: _ => true
  | _ :: _, [] => false
  | x :: xs, y :: ys => if x = y then claimPreLt xs ys else claimIdentLt x y

/-! ## Supporting lemmas -/

theorem chLt_irrefl (l : List Char) : chLt l l = false := by
  induction l with
  | nil => rfl
  | cons a as ih => simp [chLt, lt_irrefl, ih]

theorem chLt_eq_of_false_false (as : List Char) :
    ∀ bs, chLt as bs = false → chLt bs as = false → as = bs := by
  induction as with
  | nil =>
    intro bs h1 _
    cases bs with
    | nil => rfl
    | cons b bs => simp [chLt] at h1
  | cons a as ih =>
    intro bs h1 h2
    cases bs with
    | nil => simp [chLt] at h2
    | cons b bs =>
      simp only [chLt] at h1 h2
      rcases lt_trichotomy a b with h | h | h
      · simp [h] at h1
      · subst h
        simp only [lt_irrefl, if_false] at h1 h2
        rw [ih bs h1 h2]
      · simp [h] at h2

theorem strLt_irrefl (s : String) : strLt s s = false := chLt_irrefl s.data

theorem strLt_eq_of_false_false (x y : String) (h1 : strLt x y = false)
    (h2 : strLt y x = false) : x = y := by
  cases x with
  | mk xd =>
    cases y with
    | mk yd =>
      have := chLt_eq_of_false_false xd yd h1 h2
      rw [this]

theorem claimPreLt_self (l : List String) : claimPreLt l l = false := by
  induction l with
  | nil => rfl
  | cons x xs ih => simp [claimPreLt, ih]

/-- On equal-length identifier lists with no numerically-equal-but-textually
distinct digit pair, the source's pairwise loop agrees with the claimed
pairwise comparison. -/
theorem preLoop_eq_claim (l : List String) :
    ∀ r, l.length = r.length → l ≠ r →
    (∀ p ∈ l.zip r,
      ¬(isDigitStr p.1 = true ∧ isDigitStr p.2 = true ∧ p.1 ≠ p.2 ∧
        strToNat p.1 = strToNat p.2)) →
    preLoop l r = some (claimPreLt l r) := by
  induction l with
  | nil =>
    intro r hlen hne _
    cases r with
    | nil => exact absurd rfl hne
    | cons y ys => simp at hlen
  | cons x xs ih =>
    intro r hlen hne hnt
    cases r with
    | nil => simp at hlen
    | cons y ys =>
      simp only [List.length_cons, Nat.succ.injEq] at hlen
      by_cases hxy : x = y
      · subst hxy
        have hne' : xs ≠ ys := fun h => hne (by rw [h])
        have hnt' : ∀ p ∈ xs.zip ys,
            ¬(isDigitStr p.1 = true ∧ isDigitStr p.2 = true ∧ p.1 ≠ p.2 ∧
              strToNat p.1 = strToNat p.2) := by
          intro p hp
          exact hnt p (by simp [List.zip_cons_cons, hp])
        have hrec := ih ys hlen hne' hnt'
        simp only [preLoop, claimPreLt, lt_irrefl, if_true, if_false, ite_self]
        by_cases hd : isDigitStr x = true
        · simp [hd, lt_irrefl, hrec]
        · simp [hd, strLt_irrefl, hrec]
      · have hhead := hnt (x, y) (by simp [List.zip_cons_cons])
        simp only [preLoop, claimPreLt, hxy, if_false]
        by_cases hdx : isDigitStr x = true
        · by_cases hdy : isDigitStr y = true
          · have hne'' : strToNat x ≠ strToNat y := by
              intro heq
              exact hhead ⟨hdx, hdy, hxy, heq⟩
            rcases Nat.lt_trichotomy (strToNat x) (strToNat y) with h | h | h
            · simp [hdx, hdy, h, claimIdentLt]
            · exact absurd h hne''
            · simp [hdx, hdy, Nat.lt_asymm h, h, claimIdentLt]
          · simp [hdx, hdy, claimIdentLt]
        · by_cases hdy : isDigitStr y = true
          · simp [hdx, hdy, claimIdentLt]
          · by_cases hlt : strLt x y = true
            · simp [hdx, hdy, hlt, claimIdentLt]
            · have hlt' : strLt y x = true := by
                cases h2 : strLt y x with
                | true => rfl
                | false =>
                  exact absurd (strLt_eq_of_false_false x y
                    (by simpa using hlt) h2) hxy
              simp [hdx, hdy, hlt, hlt', claimIdentLt]

theorem isEmptyFalseOfNeNil {α : Type} {l : List α} (h : l ≠ []) : l.isEmpty = false := by
  cases l with
  | nil => exact absurd rfl h
  | cons x xs => rfl

/-- When the numeric triples agree and both versions carry a prerelease,
`Semver.__lt__` is exactly the prerelease order. -/
theorem semverLt_eq_preReleaseLt (a b : Semver) (hmaj : a.major = b.major)
    (hmin : a.minor = b.minor) (hpat : a.patch = b.patch)
    (ha : a.pre ≠ []) (hb : b.pre ≠ []) :
    semverLt a b = preReleaseLt a.pre b.pre := by
  simp [semverLt, hmaj, hmin, hpat, lt_irrefl, isEmptyFalseOfNeNil ha,
    isEmptyFalseOfNeNil hb]

/-! ## The claims -/

/-- C1: the claim says version ordering compares major, then minor, then
patch — so a version with the strictly greater major is never less-than the
other — and is a strict weak order.  The code violates this: the `elif`
chain of `Semver.__lt__` never returns on `lmaj > rmaj`, so
`2.0.0 < 1.1.0` and `1.1.0 < 2.0.0` both evaluate to true on distinct
versions, breaking both the componentwise rule and asymmetry. -/
theorem c1_version_order_major_violation :
    ((semverParse "2.0.0").bind fun a => (semverParse "1.1.0").bind fun b =>
      semverLt a b) = some true ∧
    ((semverParse "1.1.0").bind fun a => (semverParse "2.0.0").bind fun b =>
      semverLt a b) = some true ∧
    ((semverParse "2.0.0").bind fun a => (semverParse "1.1.0").map fun b =>
      semverEq a b) = some false := by
  decide

/-- C2: the claim says the index lookup always returns the maximum
satisfying record.  The code instead raises `RuntimeError` while sorting
whenever two satisfying versions have prereleases that are numerically
equal but textually distinct: both `1.0.0-1.01` and `1.0.0-1.1` satisfy
`>=1.0.0-0`, yet the lookup returns nothing — the one comparison the
two-element sort performs raises, whatever the dict order. -/
theorem c2_index_lookup_raises_on_tied_prereleases :
    ((parseRange ">=1.0.0-0").bind fun svr =>
      svr.compare ⟨1, 0, 0, ["1", "01"], none⟩) = some true ∧
    ((parseRange ">=1.0.0-0").bind fun svr =>
      svr.compare ⟨1, 0, 0, ["1", "1"], none⟩) = some true ∧
    semverParse "1.0.0-1.01" = some ⟨1, 0, 0, ["1", "01"], none⟩ ∧
    semverParse "1.0.0-1.1" = some ⟨1, 0, 0, ["1", "1"], none⟩ ∧
    ((parseRange ">=1.0.0-0").bind fun svr =>
      crateInfoFromIndex "t" tieRecords svr) = none := by
  decide

/-- C3: counterexample — after resolving the diamond (A → B, C; B, C → D),
the registry's node for D carries only B as a referrer edge; C's referrer
edge is not on it (it sits on a transient duplicate object that is never
registered), so the claim that the single node carries both referrer edges
fails. -/
theorem c3_registry_node_lacks_second_referrer :
    diamondDRefs = some ["B-1.0.0"] ∧
    diamondDRefs.map (fun l => decide ("C-1.0.0" ∈ l)) = some false := by
  decide

/-- C3 (amended): resolving the diamond produces exactly one registry node
for D and D's build commands execute exactly once, but the registry node
records only the first discoverer (B) as referrer — the second discovery
happens while D is still unresolved, so it attaches its referrer edge to a
fresh duplicate object instead of the eventual registry node. -/
theorem c3_single_node_first_referrer_built_once :
    diamondDRegCount = some 1 ∧
    diamondDRefs = some ["B-1.0.0"] ∧
    (diamondBuilt.bind fun s => alookup s.runsMap "D-1.0.0") = some 1 := by
  decide

/-- C4: counterexample — with feature map x → [y], default → [x] on P and a
dependent declaring no explicit features with default features enabled, the
activated set recorded for the edge to P does not contain y: the resolver
performs a single lookup per requested name, no transitive closure. -/
theorem c4_transitive_feature_not_activated :
    featureEdgeP.map (fun l => decide ("y" ∈ l)) = some false := by
  decide

/-- C4 (amended): the activated feature set recorded for the edge to P is
the one-level image of the requested names under P's feature map — each
requested name (the explicit list plus `"default"` when not disabled) is
looked up once and its entry appended — so for the map x → [y],
default → [x] with no explicit features and default features enabled, the
recorded set is exactly `[x]`: it contains x but not the transitively
implied y. -/
theorem c4_one_level_feature_activation :
    featureEdgeP = some ["x"] ∧
    activatedFeatures (depOn "P") (.fmap [("x", ["y"]), ("default", ["x"])]) = ["x"] := by
  decide

/-- C5: counterexample — the claim says equal-triple prerelease order is
decided by comparing identifiers pairwise left to right, with the shorter
prerelease ranking lower only when all shared identifiers are equal.  The
code decides by length first: `1.0.0-beta < 1.0.0-alpha.1` evaluates to
true, although the claimed pairwise procedure orders `beta` above
`alpha.1` at the very first pair (non-numeric byte order). -/
theorem c5_length_decides_before_identifiers :
    semverLt ⟨1, 0, 0, ["beta"], none⟩ ⟨1, 0, 0, ["alpha", "1"], none⟩ = some true ∧
    claimIdentLt "beta" "alpha" = false ∧
    claimPreLt ["beta"] ["alpha", "1"] = false := by
  decide

/-- C5 (amended): for equal numeric triples with both prereleases present,
the prerelease with fewer identifiers ranks lower regardless of identifier
content, and only when the lengths are equal are the identifiers compared
pairwise left to right exactly as the claim describes (numeric below
non-numeric when the kinds differ, numeric numerically, non-numeric in byte
order) — provided no paired numeric identifiers are numerically equal yet
textually distinct, where the code raises instead. -/
theorem c5_amended_prerelease_order (a b : Semver)
    (hmaj : a.major = b.major) (hmin : a.minor = b.minor) (hpat : a.patch = b.patch)
    (ha : a.pre ≠ []) (hb : b.pre ≠ []) :
    (a.pre.length < b.pre.length → semverLt a b = some true) ∧
    (b.pre.length < a.pre.length → semverLt a b = some false) ∧
    (a.pre.length = b.pre.length →
      (∀ p ∈ a.pre.zip b.pre,
        ¬(isDigitStr p.1 = true ∧ isDigitStr p.2 = true ∧ p.1 ≠ p.2 ∧
          strToNat p.1 = strToNat p.2)) →
      semverLt a b = some (claimPreLt a.pre b.pre)) := by
  rw [semverLt_eq_preReleaseLt a b hmaj hmin hpat ha hb]
  refine ⟨fun hlen => ?_, fun hlen => ?_, fun hlen hnt => ?_⟩
  · have hne : a.pre ≠ b.pre := by
      intro h
      rw [h] at hlen
      exact Nat.lt_irrefl _ hlen
    simp [preReleaseLt, hne, isEmptyFalseOfNeNil ha, Nat.lt_asymm hlen, hlen]
  · have hne : a.pre ≠ b.pre := by
      intro h
      rw [h] at hlen
      exact Nat.lt_irrefl _ hlen
    simp [preReleaseLt, hne, isEmptyFalseOfNeNil ha, Nat.lt_asymm hlen, hlen]
  · by_cases heq : a.pre = b.pre
    · rw [heq, claimPreLt_self]
      simp [preReleaseLt]
    · have hloop := preLoop_eq_claim a.pre b.pre hlen heq hnt
      simp [preReleaseLt, heq, isEmptyFalseOfNeNil ha, hlen, hloop]

/-- C5 (amended) witness: a concrete equal-length pair on which the code's
order and the claimed pairwise order agree (`alpha.2` below `alpha.10` by
numeric comparison of the second identifiers). -/
theorem c5_amended_prerelease_order_witness :
    semverLt ⟨1, 0, 0, ["alpha", "2"], none⟩ ⟨1, 0, 0, ["alpha", "10"], none⟩ =
      some (claimPreLt ["alpha", "2"] ["alpha", "10"]) :=
  (c5_amended_prerelease_order ⟨1, 0, 0, ["alpha", "2"], none⟩
    ⟨1, 0, 0, ["alpha", "10"], none⟩ rfl rfl rfl (by decide) (by decide)).2.2
    rfl (by decide)

/-- C6: the half-open bounds of the range operators equal the specified
values — lower and upper of `^1.2.3`, `^0.2.3`, `^0.0.3`, `^0`, and the
uppers of `~1.2` and `0.0.*`. -/
theorem c6_range_bounds :
    ((parseRange "^1.2.3").bind SemverRange.lower) = some (some ⟨1, 2, 3, [], none⟩) ∧
    ((parseRange "^1.2.3").bind SemverRange.upper) = some (some ⟨2, 0, 0, [], none⟩) ∧
    ((parseRange "^0.2.3").bind SemverRange.lower) = some (some ⟨0, 2, 3, [], none⟩) ∧
    ((parseRange "^0.2.3").bind SemverRange.upper) = some (some ⟨0, 3, 0, [], none⟩) ∧
    ((parseRange "^0.0.3").bind SemverRange.lower) = some (some ⟨0, 0, 3, [], none⟩) ∧
    ((parseRange "^0.0.3").bind SemverRange.upper) = some (some ⟨0, 0, 4, [], none⟩) ∧
    ((parseRange "^0").bind SemverRange.lower) = some (some ⟨0, 0, 0, [], none⟩) ∧
    ((parseRange "^0").bind SemverRange.upper) = some (some ⟨1, 0, 0, [], none⟩) ∧
    ((parseRange "~1.2").bind SemverRange.upper) = some (some ⟨1, 3, 0, [], none⟩) ∧
    ((parseRange "0.0.*").bind SemverRange.upper) = some (some ⟨0, 1, 0, [], none⟩) := by
  decide

/-- C7: the claim says an unrecognized `key=value` build-script line is
recorded verbatim (which holds) and surfaces in a direct dependent's build
environment as `DEP_<PACKAGE>_<KEY>`.  The code instead interpolates the
uppercased *value* into the variable name (`v.upper()` where the key `k`
sits unused): for package `foo` exporting `root=abc`, the dependent's
environment carries `DEP_FOO_ABC=abc` and no `DEP_FOO_ROOT`. -/
theorem c7_dep_env_uses_value_not_key :
    (buildScriptEffect ["cargo:root=abc"]).denv = [("root", some "abc")] ∧
    depEnvVars [("foo", [("root", some "abc")])] = [("DEP_FOO_ABC", "abc")] ∧
    alookup (depEnvVars [("foo", [("root", some "abc")])]) "DEP_FOO_ROOT" = none := by
  decide

/-- C8: a checksum mismatch is never fatal — the fresh-download path with a
digest that disagrees with the declared checksum still unpacks the archive
and returns the crate directory, recording only the warning-selecting
comparison result. -/
theorem c8_checksum_mismatch_nonfatal (tdir name ver digest c : String)
    (h : digest ≠ c) :
    dlAndCheckCrate tdir name ver false false digest (some c) =
      { skippedSeen := false, skippedDir := false, checksumOk := some false
        unpacked := true, cdir := tdir ++ "/" ++ (name ++ "-" ++ ver) } := by
  simp [dlAndCheckCrate, h]

/-- C8 witness: a concrete mismatching digest/checksum pair. -/
theorem c8_checksum_mismatch_nonfatal_witness :
    ("aaa" : String) ≠ "bbb" ∧
    dlAndCheckCrate "td" "foo" "1.0.0" false false "aaa" (some "bbb") =
      { skippedSeen := false, skippedDir := false, checksumOk := some false
        unpacked := true, cdir := "td" ++ "/" ++ ("foo" ++ "-" ++ "1.0.0") } :=
  ⟨by decide, c8_checksum_mismatch_nonfatal "td" "foo" "1.0.0" "aaa" "bbb" (by decide)⟩

/-- C9: version comparison is not total on valid inputs — `1.0.0-1.01` and
`1.0.0-1.1` both parse, their prereleases have the same number of
identifiers and are pairwise numerically equal yet textually distinct, and
evaluating either `<` raises `RuntimeError` (the pairwise loop exhausts
without deciding). -/
theorem c9_prerelease_comparison_raises :
    semverParse "1.0.0-1.01" = some ⟨1, 0, 0, ["1", "01"], none⟩ ∧
    semverParse "1.0.0-1.1" = some ⟨1, 0, 0, ["1", "1"], none⟩ ∧
    semverLt ⟨1, 0, 0, ["1", "01"], none⟩ ⟨1, 0, 0, ["1", "1"], none⟩ = none ∧
    semverLt ⟨1, 0, 0, ["1", "1"], none⟩ ⟨1, 0, 0, ["1", "01"], none⟩ = none := by
  decide

/-- C10: a dependency declaration marked optional is skipped unconditionally
by the resolver's per-dependency step — whatever the world, the resolving
crate, the state and the rest of the declaration, the step returns the
state unchanged: no edge, no worklist entry, no download. -/
theorem c10_optional_dependency_skipped (w : World) (selfId : Nat) (s : RState)
    (d : DepInfo) (h : d.optionalDep = true) :
    resolveDepStep w selfId s d = some s := by
  unfold resolveDepStep
  simp [h]

/-- C10 witness: a concrete optional declaration against a concrete state. -/
theorem c10_optional_dependency_skipped_witness :
    optionalDecl.optionalDep = true ∧
    resolveDepStep emptyWorld 0 emptyState optionalDecl = some emptyState :=
  ⟨rfl, c10_optional_dependency_skipped emptyWorld 0 emptyState optionalDecl rfl⟩

end Bootstrap
